import Mathlib

/-
  Verification of the texture-atlas generator
  (src/tools/texture_atlas_generator.py).

  The Python program is shallowly embedded below.  Pure computations
  (grid placement, UV arithmetic, metadata text) are translated as Lean
  functions; the effectful pipeline (`TextureAtlasGenerator.generate` and
  `main`) is translated as a function from an explicit environment --- the
  directory listing, the decode result of each file, and the success of
  each write call --- to the run's outcome: final exit signal, emitted
  warning/error events, and the output files left on disk.

  External collaborators (the PIL image library, the OS filesystem) are
  modelled at their interface boundary only: an image is an abstract value
  carrying its dimensions and provenance, a decode either yields such a
  value or raises, and each write call either succeeds or raises.  The
  control flow around those calls is translated line by line from the
  source.
-/

/-! ## Images (the PIL interface boundary) -/

/-- Resampling filter passed to `Image.resize`.  The source always passes
`Image.LANCZOS` (line 72); other filters exist in the library, represented
here by `nearest` so that "the Lanczos filter was used" is not vacuous. -/
inductive PFilter where
  | lanczos
  | nearest
deriving DecidableEq, Repr

/-- An in-memory image at the PIL boundary: either the decoded content of a
source file (with its native dimensions), or the result of resampling
another image to new dimensions with a given filter.  Pixel values are
abstract; dimensions and provenance are what the claims speak about. -/
inductive PImage where
  | decoded (name : String) (w h : Nat)
  | resized (orig : PImage) (w h : Nat) (filter : PFilter)
deriving DecidableEq, Repr

/-- Python `img.size`, as a (width, height) pair (PIL `Image.size`). -/
def PImage.size : PImage → Nat × Nat
  | .decoded _ w h => (w, h)
  | .resized _ w h _ => (w, h)

/-- The source file a (possibly resized) image originally came from. -/
def PImage.srcName : PImage → String
  | .decoded n _ _ => n
  | .resized o _ _ _ => o.srcName

/-! ## Atlas configuration (TextureAtlasGenerator.__init__, lines 18-32) -/

/-- The generator's configuration: `tile_size` and `atlas_size` fields of
`TextureAtlasGenerator`.  Both are non-negative integers here; `main`
parses them from the command line (negative and zero values are handled
at the `mainRun` boundary below, mirroring where Python would raise). -/
structure AtlasConfig where
  tileSize : Nat
  atlasSize : Nat
deriving DecidableEq, Repr

/-- Line 32, `self.tiles_per_row = atlas_size // tile_size`.  For the
positive arguments reaching this point Python's `//` agrees with `Nat`
division.  (`tile_size = 0` raises `ZeroDivisionError` in Python before a
generator exists; `mainRun` models that case separately.) -/
def AtlasConfig.tilesPerRow (c : AtlasConfig) : Nat := c.atlasSize / c.tileSize

/-- Line 53, `max_tiles = self.tiles_per_row * self.tiles_per_row`. -/
def AtlasConfig.maxTiles (c : AtlasConfig) : Nat := c.tilesPerRow * c.tilesPerRow

/-- Lines 64 and 103, `row = idx // self.tiles_per_row`. -/
def AtlasConfig.rowOf (c : AtlasConfig) (idx : Nat) : Nat := idx / c.tilesPerRow

/-- Lines 65 and 104, `col = idx % self.tiles_per_row`. -/
def AtlasConfig.colOf (c : AtlasConfig) (idx : Nat) : Nat := idx % c.tilesPerRow

/-- Line 105, `u = col / self.tiles_per_row`: exact rational value of the
Python true division. -/
def AtlasConfig.uOf (c : AtlasConfig) (idx : Nat) : ℚ :=
  (c.colOf idx : ℚ) / (c.tilesPerRow : ℚ)

/-- Line 106, `v = row / self.tiles_per_row`. -/
def AtlasConfig.vOf (c : AtlasConfig) (idx : Nat) : ℚ :=
  (c.rowOf idx : ℚ) / (c.tilesPerRow : ℚ)

/-! ## Filename helpers -/

/-- Does a filename match the glob pattern `*.png` (line 47)?  `fnmatch`
semantics: any name whose final four characters are `.png`. -/
def matchesPng (l : List Char) : Bool :=
  match l with
  | c1 :: c2 :: c3 :: c4 :: rest =>
    if rest.isEmpty then c1 = '.' && c2 = 'p' && c3 = 'n' && c4 = 'g'
    else matchesPng (c2 :: c3 :: c4 :: rest)
  | _ => false

/-- Code-point lexicographic order on names, as Python compares the
string parts of two `Path`s inside one directory (line 47's `sorted`). -/
def nameLeChars : List Char → List Char → Bool
  | [], _ => true
  | _ :: _, [] => false
  | a :: as1, b :: bs1 =>
    if a.val < b.val then true
    else if b.val < a.val then false
    else nameLeChars as1 bs1

def nameLe (a b : String) : Bool := nameLeChars a.toList b.toList

/-- Python `pathlib.PurePath.stem` (line 108): the filename with its suffix
removed, where the suffix starts at the last dot unless that dot is the
first or the last character of the name. -/
def pyStem (name : String) : String :=
  let l := name.toList
  match l.reverse.findIdx? (· = '.') with
  | none => name
  | some j =>
    let i := l.length - 1 - j
    if 0 < i ∧ i < l.length - 1 then String.mk (l.take i) else name

/-! ## Directory discovery (line 47) -/

/-- One directory entry: its filename and the outcome of decoding it with
`Image.open` --- `some img` when the file decodes, `none` when `Image.open`
would raise (corrupt data, unsupported codec, vanished file). -/
abbrev DirEntry := String × Option PImage

/-- Insert keeping `nameLe` order (helper for `sortFiles`). -/
def insertByName (x : DirEntry) : List DirEntry → List DirEntry
  | [] => [x]
  | y :: ys => if nameLe x.1 y.1 then x :: y :: ys else y :: insertByName x ys

/-- Python `sorted(...)` over directory entries by filename.  Python's sort is
stable, but filenames within one directory are distinct, so insertion
sort by the same key order yields the identical list. -/
def sortFiles : List DirEntry → List DirEntry
  | [] => []
  | x :: xs => insertByName x (sortFiles xs)

/-- Line 47, `texture_files = sorted(list(self.input_dir.glob("*.png")))`:
keep the entries matching `*.png`, sorted by filename. -/
def discover (files : List DirEntry) : List DirEntry :=
  sortFiles (files.filter fun f => matchesPng f.1.toList)

/-! ## Six-decimal formatting (line 108's `f"{u:.6f}"`) -/

def digitChar (n : Nat) : Char := Char.ofNat (48 + n % 10)

/-- Six decimal digits of `n` (most significant first), `n < 10^6`. -/
def pad6 (n : Nat) : String :=
  String.mk [digitChar (n / 100000), digitChar (n / 10000), digitChar (n / 1000),
             digitChar (n / 100), digitChar (n / 10), digitChar n]

/-- Models `f"{num/den:.6f}"` for non-negative `num/den` (line 108): the
quotient rounded to six decimal places and printed with exactly six
digits after the point.  Rounding is to nearest (ties up); Python rounds
the nearest binary double to even, which agrees except on ties and
sub-ulp differences that no claim depends on. -/
def fmt6 (num den : Nat) : String :=
  let r := (2 * (num * 1000000) + den) / (2 * den)
  toString (r / 1000000) ++ "." ++ pad6 (r % 1000000)

/-! ## Tile loading and fitting (lines 69-72) -/

/-- Line 72, `texture.resize((tile_size, tile_size), Image.LANCZOS)`: by the PIL
resize contract the result has exactly the requested dimensions. -/
def pilResize (img : PImage) (w h : Nat) (f : PFilter) : PImage :=
  .resized img w h f

/-- Lines 71-72: use the decoded image unchanged when its size already
equals `(tile_size, tile_size)`, otherwise resample it to that size with
the Lanczos filter.  Total: a size mismatch never raises. -/
def loadAndFit (c : AtlasConfig) (img : PImage) : PImage :=
  if img.size = (c.tileSize, c.tileSize) then img
  else pilResize img c.tileSize c.tileSize .lanczos

/-! ## The compositing loop (lines 63-76) -/

/-- One `atlas.paste(texture, (x, y))` call: destination x, destination y,
and the (already fitted) image pasted there. -/
abbrev Paste := Nat × Nat × PImage

/-- The loop of lines 63-76, starting at index `k`: for each file in
order, compute the cell from its index, open the file (`.error name` when
`Image.open` raises --- the Python exception leaves the `try` block), fit
it, and record the paste.  Nothing is on disk yet at this point, so a
failure discards all pastes.  `tiles_per_row` is never zero when the loop
body runs (a non-empty truncated list forces `max_tiles > 0`). -/
def paintTiles (c : AtlasConfig) (k : Nat) : List DirEntry → Except String (List Paste)
  | [] => .ok []
  | (name, none) :: _ => .error name
  | (_, some img) :: rest =>
    match paintTiles c (k + 1) rest with
    | .error p => .error p
    | .ok ps => .ok ((c.colOf k * c.tileSize, c.rowOf k * c.tileSize, loadAndFit c img) :: ps)

/-! ## The atlas canvas (line 61) -/

/-- Line 61, `Image.new('RGBA', (atlas_size, atlas_size), (0, 0, 0, 0))`, plus the
pastes applied to it, in order.  An empty paste list is the untouched,
fully transparent canvas. -/
structure Atlas where
  mode : String
  size : Nat
  background : Nat × Nat × Nat × Nat
  pastes : List Paste
deriving DecidableEq, Repr

/-! ## Metadata text (lines 94-108) -/

/-- The payload of one data-line write (line 108):
`f"{texture_file.stem},{idx},{u:.6f},{v:.6f}\n"` with `u = col/tiles_per_row`
and `v = row/tiles_per_row`. -/
def dataLine (c : AtlasConfig) (idx : Nat) (name : String) : String :=
  pyStem name ++ "," ++ toString idx ++ "," ++
    fmt6 (c.colOf idx) c.tilesPerRow ++ "," ++ fmt6 (c.rowOf idx) c.tilesPerRow ++ "\n"

/-- The four header write calls (lines 97-100). -/
def mdHeader (c : AtlasConfig) (total : Nat) : List String :=
  ["# Fresh Voxel Engine Texture Atlas Metadata\n",
   "# Atlas size: " ++ toString c.atlasSize ++ "x" ++ toString c.atlasSize ++ "\n",
   "# Tile size: " ++ toString c.tileSize ++ "x" ++ toString c.tileSize ++ "\n",
   "# Total textures: " ++ toString total ++ "\n\n"]

/-- All `f.write` payloads of `_generate_metadata` (lines 96-108), in call
order: four header lines, then one data line per (truncated) texture file
in enumeration order. -/
def mdWrites (c : AtlasConfig) (files : List DirEntry) : List String :=
  mdHeader c files.length ++ files.enum.map fun p => dataLine c p.1 p.2.1

/-! ## Run events and outcome -/

/-- The capacity warning of line 56: its two numeric holes are the
discovered count and `max_tiles`, in that order. -/
structure CapWarn where
  found : Nat
  capacityMax : Nat
deriving DecidableEq, Repr

/-- The numbers the warning message of line 56 lists, in print order. -/
def CapWarn.listedCounts (w : CapWarn) : List Nat := [w.found, w.capacityMax]

/-- An exception reaching the `except` handler of lines 90-92. -/
inductive PExc where
  | loadError (path : String)
  | saveError
  | mdOpenError
  | mdWriteError
deriving DecidableEq, Repr

/-- The fatal-error branches of `generate`: the two guard failures
(lines 42-50) and the caught exception (lines 90-92). -/
inductive GenError where
  | dirNotFound (dir : String)
  | noPngFiles (dir : String)
  | caught (e : PExc)
deriving DecidableEq, Repr

/-- Abstract text of a caught exception (PIL / OS message). -/
def PExc.text : PExc → String
  | .loadError p => "cannot identify image file " ++ p
  | .saveError => "could not write atlas image"
  | .mdOpenError => "could not open metadata file"
  | .mdWriteError => "could not write metadata file"

/-- The human-readable error line `generate` prints (lines 43, 49, 91). -/
def GenError.message : GenError → String
  | .dirNotFound d => "Error: Input directory not found: " ++ d
  | .noPngFiles d => "Error: No PNG files found in " ++ d
  | .caught e => "Error generating atlas: " ++ e.text

/-- The spec's §7 taxonomy maps both guard failures to `NoInputError`
(input directory missing, or zero recognized tile files). -/
def GenError.isNoInput : GenError → Bool
  | .dirNotFound _ => true
  | .noPngFiles _ => true
  | .caught _ => false

/-- Environment of one `generate` run: the input-directory path (used in
messages), whether it exists, its entries with their decode outcomes, and
the fate of each effectful output call --- `atlas.save` (line 80), the
metadata `open` (line 96), and the metadata `f.write` calls
(`mdWriteBudget = some k` means the `k+1`-st write call raises; `none`
means every write succeeds). -/
structure GenEnv where
  inputDir : String
  dirPresent : Bool
  files : List DirEntry
  saveOk : Bool
  mdOpenOk : Bool
  mdWriteBudget : Option Nat
deriving DecidableEq, Repr

/-- Observable outcome of one `generate` run: the returned boolean, the
error branch taken (if any), the capacity warning (if printed), and the
files left at the output paths --- `none` when the file was never created.
`mdFile` holds the successfully completed write payloads, so a `some`
shorter than the full write list is a partially written file. -/
structure GenResult where
  ok : Bool
  err : Option GenError
  warn : Option CapWarn
  atlasFile : Option Atlas
  mdFile : Option (List String)
deriving DecidableEq, Repr

/-- The list the loop and the metadata run over after the capacity check
of lines 55-57: the sorted discovery, truncated to `max_tiles` when it is
longer. -/
def placedFiles (c : AtlasConfig) (env : GenEnv) : List DirEntry :=
  let tf := discover env.files
  if tf.length > c.maxTiles then tf.take c.maxTiles else tf

/-- Method `TextureAtlasGenerator.generate` (lines 34-92), step for step:
directory guard (42-44), discovery and empty guard (47-50), capacity
warning and truncation (53-57), the try block --- canvas (61), paint loop
(63-76), `mkdir` + `atlas.save` (79-80, the first moment anything appears
on disk; a raising save leaves no atlas file), metadata emission (84-85,
96-108) --- and the handler (90-92) that prints the error and returns
`False`.  The handler runs after the writes already performed, and deletes
nothing: output files present at the moment an exception is raised stay
on disk. -/
def generateRun (c : AtlasConfig) (env : GenEnv) : GenResult :=
  if env.dirPresent = false then
    ⟨false, some (.dirNotFound env.inputDir), none, none, none⟩
  else if (discover env.files).isEmpty then
    ⟨false, some (.noPngFiles env.inputDir), none, none, none⟩
  else
    let tf := discover env.files
    let warn : Option CapWarn :=
      if tf.length > c.maxTiles then some ⟨tf.length, c.maxTiles⟩ else none
    let files := placedFiles c env
    match paintTiles c 0 files with
    | .error p => ⟨false, some (.caught (.loadError p)), warn, none, none⟩
    | .ok ps =>
      if env.saveOk = false then
        ⟨false, some (.caught .saveError), warn, none, none⟩
      else
        let atlas : Atlas := ⟨"RGBA", c.atlasSize, (0, 0, 0, 0), ps⟩
        if env.mdOpenOk = false then
          ⟨false, some (.caught .mdOpenError), warn, some atlas, none⟩
        else
          let writes := mdWrites c files
          match env.mdWriteBudget with
          | some k =>
            if k < writes.length then
              ⟨false, some (.caught .mdWriteError), warn, some atlas, some (writes.take k)⟩
            else
              ⟨true, none, warn, some atlas, some writes⟩
          | none => ⟨true, none, warn, some atlas, some writes⟩

/-- Lines 147-152: `main` returns 0 when `generate()` returned `True`,
else 1. -/
def exitOfGenerate (ok : Bool) : Nat := if ok then 0 else 1

/-! ## The command-line entry point (lines 111-152) -/

/-- Python `int(s)`: optional surrounding whitespace, an optional sign,
then a non-empty digit run in which single underscores may separate
digits.  `none` models the `ValueError` raise. -/
def pyIntDigits : List Char → Nat → Option Nat
  | [], acc => some acc
  | '_' :: c :: rest, acc =>
    if c.isDigit then pyIntDigits rest (acc * 10 + (c.toNat - 48)) else none
  | c :: rest, acc =>
    if c.isDigit then pyIntDigits rest (acc * 10 + (c.toNat - 48)) else none

def pyIntNat : List Char → Option Nat
  | [] => none
  | c :: rest => if c.isDigit then pyIntDigits rest (c.toNat - 48) else none

/-- Surrounding-whitespace strip, as `int` ignores it. -/
def stripWs (l : List Char) : List Char :=
  ((l.dropWhile Char.isWhitespace).reverse.dropWhile Char.isWhitespace).reverse

def pyInt (s : String) : Option Int :=
  match stripWs s.toList with
  | '+' :: rest => (pyIntNat rest).map fun n => (n : Int)
  | '-' :: rest => (pyIntNat rest).map fun n => -(n : Int)
  | l => (pyIntNat l).map fun n => (n : Int)

/-- Outcome of the flag loop of lines 139-143. -/
inductive FlagsResult where
  | ok (tileSize atlasSize : Int)
  | valueError (bad : String)
deriving DecidableEq, Repr

/-- Loop `for i in range(3, len(sys.argv), 2)` (lines 139-143), phrased over
the argument list after the two positional paths: the loop reads
`sys.argv[i]` and --- when the slot `i+1` exists, i.e. the tail has a
second element --- `sys.argv[i+1]`.  A recognized flag name parses its
value with `int`; an unparsable value raises `ValueError` out of `main`;
anything else is ignored.  A trailing lone token has no value slot, so
both guards fail and the loop ends. -/
def parseFlags : List String → Int → Int → FlagsResult
  | [], tSize, aSize => .ok tSize aSize
  | [_], tSize, aSize => .ok tSize aSize
  | x :: v :: rest, tSize, aSize =>
    if x = "--tile-size" then
      match pyInt v with
      | none => .valueError v
      | some n => parseFlags rest n aSize
    else if x = "--atlas-size" then
      match pyInt v with
      | none => .valueError v
      | some n => parseFlags rest tSize n
    else parseFlags rest tSize aSize

/-- Environment of one `main` invocation: whether the `import PIL` of
line 118 succeeds, and the filesystem environment `generate` runs in. -/
structure MainEnv where
  pilAvailable : Bool
  fs : GenEnv
deriving DecidableEq, Repr

/-- How a `main` invocation ends: a return value reaching
`sys.exit(main())`, or an exception raised past `main` uncaught. -/
inductive MainOutcome where
  | exitCode (code : Nat)
  | uncaughtValueError (bad : String)
  | uncaughtZeroDivision
deriving DecidableEq, Repr

/-- Function `main` (lines 111-152), assuming the module imported (line 12 itself
does `from PIL import Image`, so `main` only runs with PIL importable;
the guard of lines 117-122 is kept as written).  After the argument
check (124-131) and the flag loop (139-143), the generator is built at
line 145: `tile_size = 0` makes `atlas_size // tile_size` raise
`ZeroDivisionError` out of `main`.  A negative `tile_size` or
`atlas_size` always yields `False` from `generate` --- every such run ends
in a guard failure or a `ValueError` raised by `Image.new`/`resize`
inside the `try` of lines 60-92 --- hence exit code 1; the remaining,
non-negative configurations run the embedded `generateRun`. -/
def mainAfterFlags (m : MainEnv) : FlagsResult → MainOutcome
  | .valueError s => .uncaughtValueError s
  | .ok tSize aSize =>
    if tSize = 0 then .uncaughtZeroDivision
    else if tSize < 0 ∨ aSize < 0 then .exitCode 1
    else .exitCode (exitOfGenerate (generateRun ⟨tSize.toNat, aSize.toNat⟩ m.fs).ok)

def mainRun (m : MainEnv) (argv : List String) : MainOutcome :=
  if m.pilAvailable = false then .exitCode 1
  else if argv.length < 3 then .exitCode 1
  else mainAfterFlags m (parseFlags (argv.drop 3) 16 4096)

/-! ## Helper lemmas -/

theorem paintTiles_ok_length {c : AtlasConfig} :
    ∀ {l : List DirEntry} {k : Nat} {ps : List Paste},
      paintTiles c k l = .ok ps → ps.length = l.length := by
  intro l
  induction l with
  | nil =>
    intro k ps h
    simp [paintTiles] at h
    simp [← h]
  | cons e rest ih =>
    intro k ps h
    obtain ⟨nm, oim⟩ := e
    cases oim with
    | none => simp [paintTiles] at h
    | some im =>
      simp only [paintTiles] at h
      cases hrec : paintTiles c (k + 1) rest with
      | error p => rw [hrec] at h; simp at h
      | ok ps' =>
        rw [hrec] at h
        simp at h
        subst h
        simp [ih hrec]

theorem paintTiles_error_of_none {c : AtlasConfig} :
    ∀ {l : List DirEntry} {k : Nat}, (∃ e ∈ l, e.2 = none) →
      ∃ p, paintTiles c k l = .error p := by
  intro l
  induction l with
  | nil => intro k h; simp at h
  | cons e rest ih =>
    intro k h
    obtain ⟨nm, oim⟩ := e
    cases oim with
    | none => exact ⟨nm, rfl⟩
    | some im =>
      have hrest : ∃ x ∈ rest, x.2 = none := by
        rcases h with ⟨x, hx, hx2⟩
        rcases List.mem_cons.mp hx with h1 | h1
        · subst h1; simp at hx2
        · exact ⟨x, h1, hx2⟩
      obtain ⟨p, hp⟩ := ih (k := k + 1) hrest
      exact ⟨p, by simp [paintTiles, hp]⟩

theorem paintTiles_ok_of_all_some {c : AtlasConfig} :
    ∀ {l : List DirEntry} {k : Nat}, (∀ e ∈ l, e.2 ≠ none) →
      ∃ ps, paintTiles c k l = .ok ps := by
  intro l
  induction l with
  | nil => intro k _; exact ⟨[], rfl⟩
  | cons e rest ih =>
    intro k h
    obtain ⟨nm, oim⟩ := e
    cases oim with
    | none =>
      have hmem : (nm, (none : Option PImage)) ∈ (nm, (none : Option PImage)) :: rest := by simp
      exact absurd rfl (h _ hmem)
    | some im =>
      have hrest : ∀ x ∈ rest, x.2 ≠ none := fun x hx => h x (List.mem_cons_of_mem _ hx)
      obtain ⟨ps, hp⟩ := ih (k := k + 1) hrest
      exact ⟨(c.colOf k * c.tileSize, c.rowOf k * c.tileSize, loadAndFit c im) :: ps,
             by simp [paintTiles, hp]⟩

theorem paintTiles_get {c : AtlasConfig} :
    ∀ {l : List DirEntry} {k : Nat} {ps : List Paste}, paintTiles c k l = .ok ps →
      ∀ i (hi : i < ps.length), ∃ nm im, ∃ hl : i < l.length,
        l.get ⟨i, hl⟩ = (nm, some im) ∧
        ps.get ⟨i, hi⟩ =
          (c.colOf (k + i) * c.tileSize, c.rowOf (k + i) * c.tileSize, loadAndFit c im) := by
  intro l
  induction l with
  | nil =>
    intro k ps h i hi
    simp [paintTiles] at h
    subst h
    simp at hi
  | cons e rest ih =>
    intro k ps h i hi
    obtain ⟨nm, oim⟩ := e
    cases oim with
    | none => simp [paintTiles] at h
    | some im =>
      simp only [paintTiles] at h
      cases hrec : paintTiles c (k + 1) rest with
      | error p => rw [hrec] at h; simp at h
      | ok ps' =>
        rw [hrec] at h
        simp at h
        subst h
        cases i with
        | zero => exact ⟨nm, im, by simp, by simp, by simp⟩
        | succ j =>
          have hj : j < ps'.length := by simpa using hi
          obtain ⟨nm', im', hl, h1, h2⟩ := ih hrec j hj
          refine ⟨nm', im', by simpa using Nat.succ_lt_succ hl, by simpa using h1, ?_⟩
          have hidx : k + (j + 1) = k + 1 + j := by omega
          simpa [hidx] using h2

theorem placedFiles_length_le (c : AtlasConfig) (env : GenEnv) :
    (placedFiles c env).length ≤ c.maxTiles := by
  unfold placedFiles
  by_cases h : (discover env.files).length > c.maxTiles
  · simp [h]
  · simp [h]; omega

theorem append_ne_empty_left (a b : String) (ha : a.length ≠ 0) : a ++ b ≠ "" := by
  intro h
  have hl := congrArg String.length h
  rw [String.length_append] at hl
  simp at hl
  omega

theorem genError_message_ne_empty (e : GenError) : e.message ≠ "" := by
  cases e with
  | dirNotFound d => exact append_ne_empty_left _ _ (by decide)
  | noPngFiles d => exact append_ne_empty_left _ _ (by decide)
  | caught ex => exact append_ne_empty_left _ _ (by decide)

theorem parseFlags_valueError {s : String} :
    ∀ (l : List String) (t a : Int),
      parseFlags l t a = .valueError s → s ∈ l ∧ pyInt s = none := by
  intro l t a
  induction l, t, a using parseFlags.induct with
  | case1 t a => intro h; simp [parseFlags] at h
  | case2 x t a => intro h; simp [parseFlags] at h
  | case3 v rest t a hv =>
    intro h
    simp [parseFlags, hv] at h
    subst h
    exact ⟨by simp, hv⟩
  | case4 v rest t a n hv ih =>
    intro h
    simp [parseFlags, hv] at h
    obtain ⟨hs, hn⟩ := ih h
    exact ⟨by simp [hs], hn⟩
  | case5 v rest t a hv hne =>
    intro h
    simp [parseFlags, hv] at h
    subst h
    exact ⟨by simp, hv⟩
  | case6 v rest t a n hv hne ih =>
    intro h
    simp [parseFlags, hv] at h
    obtain ⟨hs, hn⟩ := ih h
    exact ⟨by simp [hs], hn⟩
  | case7 x v rest t a hx1 hx2 ih =>
    intro h
    simp only [parseFlags, if_neg hx1, if_neg hx2] at h
    obtain ⟨hs, hn⟩ := ih h
    exact ⟨by simp [hs], hn⟩

theorem parseFlags_ok_sources :
    ∀ (l : List String) (t a : Int) {t2 a2 : Int}, parseFlags l t a = .ok t2 a2 →
      (t2 = t ∨ ∃ s ∈ l, pyInt s = some t2) ∧ (a2 = a ∨ ∃ s ∈ l, pyInt s = some a2) := by
  intro l t a
  induction l, t, a using parseFlags.induct with
  | case1 t a =>
    intro t2 a2 h
    simp [parseFlags] at h
    exact ⟨Or.inl h.1.symm, Or.inl h.2.symm⟩
  | case2 x t a =>
    intro t2 a2 h
    simp [parseFlags] at h
    exact ⟨Or.inl h.1.symm, Or.inl h.2.symm⟩
  | case3 v rest t a hv =>
    intro t2 a2 h
    simp [parseFlags, hv] at h
  | case4 v rest t a n hv ih =>
    intro t2 a2 h
    simp [parseFlags, hv] at h
    obtain ⟨ht, ha⟩ := ih h
    constructor
    · rcases ht with ht | ⟨s, hs, hps⟩
      · exact Or.inr ⟨v, by simp, by rw [hv, ht]⟩
      · exact Or.inr ⟨s, by simp [hs], hps⟩
    · rcases ha with ha | ⟨s, hs, hps⟩
      · exact Or.inl ha
      · exact Or.inr ⟨s, by simp [hs], hps⟩
  | case5 v rest t a hv hne =>
    intro t2 a2 h
    simp [parseFlags, hv] at h
  | case6 v rest t a n hv hne ih =>
    intro t2 a2 h
    simp [parseFlags, hv] at h
    obtain ⟨ht, ha⟩ := ih h
    constructor
    · rcases ht with ht | ⟨s, hs, hps⟩
      · exact Or.inl ht
      · exact Or.inr ⟨s, by simp [hs], hps⟩
    · rcases ha with ha | ⟨s, hs, hps⟩
      · exact Or.inr ⟨v, by simp, by rw [hv, ha]⟩
      · exact Or.inr ⟨s, by simp [hs], hps⟩
  | case7 x v rest t a hx1 hx2 ih =>
    intro t2 a2 h
    simp only [parseFlags, if_neg hx1, if_neg hx2] at h
    obtain ⟨ht, ha⟩ := ih h
    constructor
    · rcases ht with ht | ⟨s, hs, hps⟩
      · exact Or.inl ht
      · exact Or.inr ⟨s, by simp [hs], hps⟩
    · rcases ha with ha | ⟨s, hs, hps⟩
      · exact Or.inl ha
      · exact Or.inr ⟨s, by simp [hs], hps⟩

/-- The run's blank canvas with its pastes, abbreviated. -/
def atlasOf (c : AtlasConfig) (ps : List Paste) : Atlas :=
  ⟨"RGBA", c.atlasSize, (0, 0, 0, 0), ps⟩

/-- Complete case analysis of `generateRun`: every run falls into exactly
one of the branches of `generate`, with the literal result record. -/
theorem generateRun_split (c : AtlasConfig) (env : GenEnv) :
    (env.dirPresent = false ∧
       generateRun c env = ⟨false, some (.dirNotFound env.inputDir), none, none, none⟩) ∨
    (env.dirPresent = true ∧ discover env.files = [] ∧
       generateRun c env = ⟨false, some (.noPngFiles env.inputDir), none, none, none⟩) ∨
    (env.dirPresent = true ∧ discover env.files ≠ [] ∧ ∃ w : Option CapWarn,
      (((discover env.files).length > c.maxTiles ∧
          w = some ⟨(discover env.files).length, c.maxTiles⟩) ∨
       (¬ (discover env.files).length > c.maxTiles ∧ w = none)) ∧
      ((∃ p, paintTiles c 0 (placedFiles c env) = .error p ∧
          generateRun c env = ⟨false, some (.caught (.loadError p)), w, none, none⟩) ∨
       (∃ ps, paintTiles c 0 (placedFiles c env) = .ok ps ∧
         ((env.saveOk = false ∧
             generateRun c env = ⟨false, some (.caught .saveError), w, none, none⟩) ∨
          (env.saveOk = true ∧ env.mdOpenOk = false ∧
             generateRun c env = ⟨false, some (.caught .mdOpenError), w, some (atlasOf c ps), none⟩) ∨
          (env.saveOk = true ∧ env.mdOpenOk = true ∧
            ((∃ k, env.mdWriteBudget = some k ∧ k < (mdWrites c (placedFiles c env)).length ∧
                generateRun c env = ⟨false, some (.caught .mdWriteError), w, some (atlasOf c ps),
                  some ((mdWrites c (placedFiles c env)).take k)⟩) ∨
             ((env.mdWriteBudget = none ∨
                 ∃ k, env.mdWriteBudget = some k ∧ ¬ k < (mdWrites c (placedFiles c env)).length) ∧
                generateRun c env =
                  ⟨true, none, w, some (atlasOf c ps), some (mdWrites c (placedFiles c env))⟩))))))) := by
  by_cases h1 : env.dirPresent = false
  · exact Or.inl ⟨h1, by simp [generateRun, h1]⟩
  · have h1' : env.dirPresent = true := by
      cases hd : env.dirPresent
      · exact absurd hd h1
      · rfl
    by_cases h2 : discover env.files = []
    · exact Or.inr (Or.inl ⟨h1', h2, by simp [generateRun, h1', h2]⟩)
    · refine Or.inr (Or.inr ⟨h1', h2, ?_⟩)
      have h2' : (discover env.files).isEmpty = false := by
        cases he : discover env.files
        · exact absurd he h2
        · rfl
      by_cases hov : (discover env.files).length > c.maxTiles
      · refine ⟨some ⟨(discover env.files).length, c.maxTiles⟩, Or.inl ⟨hov, rfl⟩, ?_⟩
        cases hp : paintTiles c 0 (placedFiles c env) with
        | error p => exact Or.inl ⟨p, rfl, by simp [generateRun, h1', h2', hov, hp]⟩
        | ok ps =>
          refine Or.inr ⟨ps, rfl, ?_⟩
          cases hs : env.saveOk with
          | false => exact Or.inl ⟨rfl, by simp [generateRun, h1', h2', hov, hp, hs]⟩
          | true =>
            cases ho : env.mdOpenOk with
            | false =>
              exact Or.inr (Or.inl ⟨rfl, rfl,
                by simp [generateRun, atlasOf, h1', h2', hov, hp, hs, ho]⟩)
            | true =>
              cases hb : env.mdWriteBudget with
              | none =>
                exact Or.inr (Or.inr ⟨rfl, rfl, Or.inr ⟨Or.inl rfl,
                  by simp [generateRun, atlasOf, h1', h2', hov, hp, hs, ho, hb]⟩⟩)
              | some k =>
                by_cases hk : k < (mdWrites c (placedFiles c env)).length
                · exact Or.inr (Or.inr ⟨rfl, rfl, Or.inl ⟨k, rfl, hk,
                    by simp [generateRun, atlasOf, h1', h2', hov, hp, hs, ho, hb, hk]⟩⟩)
                · exact Or.inr (Or.inr ⟨rfl, rfl, Or.inr ⟨Or.inr ⟨k, rfl, hk⟩,
                    by simp [generateRun, atlasOf, h1', h2', hov, hp, hs, ho, hb, hk]⟩⟩)
      · refine ⟨none, Or.inr ⟨hov, rfl⟩, ?_⟩
        cases hp : paintTiles c 0 (placedFiles c env) with
        | error p => exact Or.inl ⟨p, rfl, by simp [generateRun, h1', h2', hov, hp]⟩
        | ok ps =>
          refine Or.inr ⟨ps, rfl, ?_⟩
          cases hs : env.saveOk with
          | false => exact Or.inl ⟨rfl, by simp [generateRun, h1', h2', hov, hp, hs]⟩
          | true =>
            cases ho : env.mdOpenOk with
            | false =>
              exact Or.inr (Or.inl ⟨rfl, rfl,
                by simp [generateRun, atlasOf, h1', h2', hov, hp, hs, ho]⟩)
            | true =>
              cases hb : env.mdWriteBudget with
              | none =>
                exact Or.inr (Or.inr ⟨rfl, rfl, Or.inr ⟨Or.inl rfl,
                  by simp [generateRun, atlasOf, h1', h2', hov, hp, hs, ho, hb]⟩⟩)
              | some k =>
                by_cases hk : k < (mdWrites c (placedFiles c env)).length
                · exact Or.inr (Or.inr ⟨rfl, rfl, Or.inl ⟨k, rfl, hk,
                    by simp [generateRun, atlasOf, h1', h2', hov, hp, hs, ho, hb, hk]⟩⟩)
                · exact Or.inr (Or.inr ⟨rfl, rfl, Or.inr ⟨Or.inr ⟨k, rfl, hk⟩,
                    by simp [generateRun, atlasOf, h1', h2', hov, hp, hs, ho, hb, hk]⟩⟩)

/-- An atlas file on disk determines a successful full paint: the save of
line 80 runs only after the loop of lines 63-76 completed. -/
theorem generateRun_atlas_pastes {c : AtlasConfig} {env : GenEnv} {a : Atlas}
    (ha : (generateRun c env).atlasFile = some a) :
    paintTiles c 0 (placedFiles c env) = .ok a.pastes := by
  rcases generateRun_split c env with ⟨_, hg⟩ | ⟨_, _, hg⟩ | ⟨_, _, w, _, hrest⟩
  · rw [hg] at ha; cases ha
  · rw [hg] at ha; cases ha
  · rcases hrest with ⟨p, hp, hg⟩ | ⟨ps, hp, hcase⟩
    · rw [hg] at ha; cases ha
    · rcases hcase with ⟨_, hg⟩ | ⟨_, _, hg⟩ | ⟨_, _, hcc⟩
      · rw [hg] at ha; cases ha
      · rw [hg] at ha
        injection ha with ha
        subst ha
        exact hp
      · rcases hcc with ⟨k, _, _, hg⟩ | ⟨_, hg⟩
        · rw [hg] at ha
          injection ha with ha
          subst ha
          exact hp
        · rw [hg] at ha
          injection ha with ha
          subst ha
          exact hp

/-- A successful run's outputs: the full metadata write list and a fully
painted atlas. -/
theorem generateRun_ok_outputs {c : AtlasConfig} {env : GenEnv}
    (hok : (generateRun c env).ok = true) :
    (generateRun c env).mdFile = some (mdWrites c (placedFiles c env)) ∧
    ∃ ps, paintTiles c 0 (placedFiles c env) = .ok ps ∧
      (generateRun c env).atlasFile = some (atlasOf c ps) := by
  rcases generateRun_split c env with ⟨_, hg⟩ | ⟨_, _, hg⟩ | ⟨_, _, w, _, hrest⟩
  · rw [hg] at hok; cases hok
  · rw [hg] at hok; cases hok
  · rcases hrest with ⟨p, hp, hg⟩ | ⟨ps, hp, hcase⟩
    · rw [hg] at hok; cases hok
    · rcases hcase with ⟨_, hg⟩ | ⟨_, _, hg⟩ | ⟨_, _, hcc⟩
      · rw [hg] at hok; cases hok
      · rw [hg] at hok; cases hok
      · rcases hcc with ⟨k, _, _, hg⟩ | ⟨_, hg⟩
        · rw [hg] at hok; cases hok
        · rw [hg]; exact ⟨rfl, ps, hp, rfl⟩

/-- A failing run took one of the error branches, so an error was
printed. -/
theorem generateRun_false_err {c : AtlasConfig} {env : GenEnv}
    (hok : (generateRun c env).ok = false) :
    ∃ e, (generateRun c env).err = some e := by
  rcases generateRun_split c env with ⟨_, hg⟩ | ⟨_, _, hg⟩ | ⟨_, _, w, _, hrest⟩
  · rw [hg]; exact ⟨_, rfl⟩
  · rw [hg]; exact ⟨_, rfl⟩
  · rcases hrest with ⟨p, hp, hg⟩ | ⟨ps, hp, hcase⟩
    · rw [hg]; exact ⟨_, rfl⟩
    · rcases hcase with ⟨_, hg⟩ | ⟨_, _, hg⟩ | ⟨_, _, hcc⟩
      · rw [hg]; exact ⟨_, rfl⟩
      · rw [hg]; exact ⟨_, rfl⟩
      · rcases hcc with ⟨k, _, _, hg⟩ | ⟨_, hg⟩
        · rw [hg]; exact ⟨_, rfl⟩
        · rw [hg] at hok; cases hok

/-! ## Concrete fixtures -/

/-- A well-formed 16×16 source tile. -/
def tile16 (n : String) : PImage := .decoded n 16 16

/-- Config `tile_size = 16`, `atlas_size = 32`: `tiles_per_row = 2`,
capacity `max_tiles = 4` (the spec's §8 concrete scenario geometry). -/
def cfg32 : AtlasConfig := ⟨16, 32⟩

/-! ## C7 -/

/-- C7: for every input directory containing zero recognized tile files,
and likewise for a missing input directory, the run fails with the
spec's `NoInputError` (the two guard branches of lines 42-50) and exit
code 1, and neither an atlas file nor a metadata file is created. -/
theorem c7_no_input (c : AtlasConfig) (env : GenEnv)
    (h : env.dirPresent = false ∨ discover env.files = []) :
    ∃ e, (generateRun c env).err = some e ∧ e.isNoInput = true ∧
      (generateRun c env).ok = false ∧ exitOfGenerate (generateRun c env).ok = 1 ∧
      (generateRun c env).atlasFile = none ∧ (generateRun c env).mdFile = none := by
  rcases generateRun_split c env with ⟨hd, hg⟩ | ⟨hd, he, hg⟩ | ⟨hd, he, w, hw, hrest⟩
  · rw [hg]; exact ⟨_, rfl, rfl, rfl, rfl, rfl, rfl⟩
  · rw [hg]; exact ⟨_, rfl, rfl, rfl, rfl, rfl, rfl⟩
  · rcases h with h | h
    · rw [hd] at h; cases h
    · exact absurd h he

/-- A directory with one entry that is not a `.png` file: discovery finds
nothing. -/
def c7wenv : GenEnv :=
  ⟨"textures/blocks", true, [("readme.txt", some (tile16 "readme.txt"))], true, true, none⟩

/-- C7 witness: the empty-discovery instance. -/
theorem c7_no_input_instance :
    ∃ e, (generateRun cfg32 c7wenv).err = some e ∧ e.isNoInput = true ∧
      (generateRun cfg32 c7wenv).ok = false ∧ exitOfGenerate (generateRun cfg32 c7wenv).ok = 1 ∧
      (generateRun cfg32 c7wenv).atlasFile = none ∧ (generateRun cfg32 c7wenv).mdFile = none :=
  c7_no_input cfg32 c7wenv (Or.inr (by decide))

/-! ## C1 -/

/-- Five `.png` entries, already in sorted order `a..e`; only `e.png` is
corrupt, and it sits beyond the capacity cutoff of 4. -/
def c1env : GenEnv :=
  ⟨"textures/blocks", true,
   [("a.png", some (tile16 "a.png")), ("b.png", some (tile16 "b.png")),
    ("c.png", some (tile16 "c.png")), ("d.png", some (tile16 "d.png")),
    ("e.png", none)], true, true, none⟩

/-- C1 counterexample: a corrupt tile in the sorted input list (position
4, after four valid tiles) does not make the run fail when it lies past
the capacity cutoff: truncation drops it before it is ever opened, the
run succeeds with exit code 0, and both output files are written. -/
theorem c1_refuted :
    ((discover c1env.files).map Prod.snd).contains none = true ∧
    (generateRun cfg32 c1env).ok = true ∧
    exitOfGenerate (generateRun cfg32 c1env).ok = 0 ∧
    (generateRun cfg32 c1env).atlasFile ≠ none ∧
    (generateRun cfg32 c1env).mdFile ≠ none := by decide

/-- C1 (amended): if a tile among the entries retained after capacity
truncation fails to decode, the run fails fatally (returns `False`, exit
code 1) with a load error, and neither the atlas image file nor the
metadata file is created. -/
theorem c1_amended (c : AtlasConfig) (env : GenEnv)
    (hdir : env.dirPresent = true)
    (h : ∃ e ∈ placedFiles c env, e.2 = none) :
    (generateRun c env).ok = false ∧
    exitOfGenerate (generateRun c env).ok = 1 ∧
    (generateRun c env).atlasFile = none ∧
    (generateRun c env).mdFile = none ∧
    ∃ p, (generateRun c env).err = some (.caught (.loadError p)) := by
  obtain ⟨perr, hperr⟩ := paintTiles_error_of_none (c := c) (k := 0) h
  rcases generateRun_split c env with ⟨hd, hg⟩ | ⟨hd, he, hg⟩ | ⟨hd, he, w, hw, hrest⟩
  · rw [hdir] at hd; cases hd
  · have hpl : placedFiles c env = [] := by simp [placedFiles, he]
    rw [hpl] at h
    simp at h
  · rcases hrest with ⟨p, hp, hg⟩ | ⟨ps, hp, _⟩
    · rw [hg]; exact ⟨rfl, rfl, rfl, rfl, p, rfl⟩
    · rw [hperr] at hp; cases hp

/-- Three `.png` entries with the middle one corrupt, all within
capacity. -/
def c1wenv : GenEnv :=
  ⟨"textures/blocks", true,
   [("a.png", some (tile16 "a.png")), ("b.png", none),
    ("c.png", some (tile16 "c.png"))], true, true, none⟩

/-- C1 witness: a corrupt tile inside the retained range aborts the run
with no outputs. -/
theorem c1_amended_instance :
    (generateRun cfg32 c1wenv).ok = false ∧
    exitOfGenerate (generateRun cfg32 c1wenv).ok = 1 ∧
    (generateRun cfg32 c1wenv).atlasFile = none ∧
    (generateRun cfg32 c1wenv).mdFile = none ∧
    ∃ p, (generateRun cfg32 c1wenv).err = some (.caught (.loadError p)) :=
  c1_amended cfg32 c1wenv rfl ⟨("b.png", none), by decide, rfl⟩

/-! ## C2 -/

/-- Two valid tiles; `atlas.save` and the metadata `open` succeed, but
the fifth metadata write call (the first data line, after the four header
writes) raises. -/
def c2env : GenEnv :=
  ⟨"textures/blocks", true,
   [("a.png", some (tile16 "a.png")), ("b.png", some (tile16 "b.png"))],
   true, true, some 4⟩

/-- C2 counterexample: a fatal error during metadata emission leaves the
already-saved atlas file on disk and a partially written metadata file
(the four header lines, fewer than the six writes of a complete file) ---
the run does fail with exit code 1, but the on-disk guarantee of the
claim is violated. -/
theorem c2_refuted :
    (generateRun cfg32 c2env).ok = false ∧
    exitOfGenerate (generateRun cfg32 c2env).ok = 1 ∧
    (generateRun cfg32 c2env).atlasFile ≠ none ∧
    (generateRun cfg32 c2env).mdFile = some (mdHeader cfg32 2) ∧
    mdHeader cfg32 2 ≠ [] ∧
    (mdHeader cfg32 2).length < (mdWrites cfg32 (placedFiles cfg32 c2env)).length := by
  decide

/-- C2 (amended): every fatal error mid-run yields a printed
human-readable message and exit code 1, and the atlas file is written
only after all paintable tiles are processed --- an atlas file on disk is
always the fully painted one.  (No stronger on-disk guarantee holds: as
the counterexample shows, a failure during metadata emission leaves the
completed atlas and a partial metadata file behind, since the handler of
lines 90-92 deletes nothing.) -/
theorem c2_amended (c : AtlasConfig) (env : GenEnv) :
    ((generateRun c env).ok = false →
       exitOfGenerate (generateRun c env).ok = 1 ∧
       ∃ e, (generateRun c env).err = some e ∧ e.message ≠ "") ∧
    (∀ a, (generateRun c env).atlasFile = some a →
       paintTiles c 0 (placedFiles c env) = .ok a.pastes ∧
       a.pastes.length = (placedFiles c env).length) := by
  constructor
  · intro hok
    obtain ⟨e, he⟩ := generateRun_false_err hok
    rw [hok]
    exact ⟨rfl, e, he, genError_message_ne_empty e⟩
  · intro a ha
    have hp := generateRun_atlas_pastes ha
    exact ⟨hp, paintTiles_ok_length hp⟩

/-- C2 witness: the failing metadata-emission run reports an error and
exit code 1. -/
theorem c2_amended_instance :
    exitOfGenerate (generateRun cfg32 c2env).ok = 1 ∧
    ∃ e, (generateRun cfg32 c2env).err = some e ∧ e.message ≠ "" :=
  (c2_amended cfg32 c2env).1 (by decide)

/-! ## C3 -/

/-- Six valid tiles against capacity 4: the spec's §8 truncation
scenario. -/
def c3env : GenEnv :=
  ⟨"textures/blocks", true,
   [("a.png", some (tile16 "a.png")), ("b.png", some (tile16 "b.png")),
    ("c.png", some (tile16 "c.png")), ("d.png", some (tile16 "d.png")),
    ("e.png", some (tile16 "e.png")), ("f.png", some (tile16 "f.png"))],
   true, true, none⟩

/-- C3 counterexample: with 6 discovered tiles and capacity 4 the run
succeeds and warns, but the warning of line 56 lists the discovered
count (6) and the capacity (4) --- the excess count (2) appears in
neither of its numeric holes, so the warning does not list the excess
count as the claim states. -/
theorem c3_refuted :
    (generateRun cfg32 c3env).ok = true ∧
    (generateRun cfg32 c3env).warn = some ⟨6, 4⟩ ∧
    (6 : Nat) - 4 = 2 ∧
    (2 : Nat) ∉ CapWarn.listedCounts ⟨6, 4⟩ := by decide

/-- C3 (amended): whenever the discovered count exceeds
`capacity = tilesPerRow²`, exactly the first `capacity` entries of the
sorted file list are placed; the run emits a capacity-exceeded warning
listing the discovered count and the capacity, continues non-fatally and
succeeds (given no subsequent I/O failure), and every tile beyond the
first `capacity` appears in neither the atlas nor the metadata: both are
computed from the truncated list alone. -/
theorem c3_amended (c : AtlasConfig) (env : GenEnv)
    (hdir : env.dirPresent = true)
    (hov : (discover env.files).length > c.maxTiles)
    (hload : ∀ e ∈ placedFiles c env, e.2 ≠ none)
    (hsave : env.saveOk = true) (hopen : env.mdOpenOk = true)
    (hbud : env.mdWriteBudget = none) :
    (generateRun c env).ok = true ∧
    exitOfGenerate (generateRun c env).ok = 0 ∧
    (generateRun c env).warn = some ⟨(discover env.files).length, c.maxTiles⟩ ∧
    placedFiles c env = (discover env.files).take c.maxTiles ∧
    (placedFiles c env).length = c.maxTiles ∧
    (∃ ps, (generateRun c env).atlasFile = some (atlasOf c ps) ∧
       paintTiles c 0 (placedFiles c env) = .ok ps ∧ ps.length = c.maxTiles) ∧
    (generateRun c env).mdFile = some (mdWrites c (placedFiles c env)) := by
  have hpl : placedFiles c env = (discover env.files).take c.maxTiles := by
    simp [placedFiles, hov]
  have hlen : (placedFiles c env).length = c.maxTiles := by
    rw [hpl, List.length_take]
    exact Nat.min_eq_left (Nat.le_of_lt hov)
  rcases generateRun_split c env with ⟨hd, hg⟩ | ⟨hd, he, hg⟩ | ⟨hd, he, w, hw, hrest⟩
  · rw [hdir] at hd; cases hd
  · rw [he] at hov; simp at hov
  · rcases hw with ⟨_, hweq⟩ | ⟨hnov, _⟩
    · subst hweq
      rcases hrest with ⟨p, hp, hg⟩ | ⟨ps, hp, hcase⟩
      · obtain ⟨ps, hps⟩ := paintTiles_ok_of_all_some (c := c) (k := 0) hload
        rw [hps] at hp; cases hp
      · rcases hcase with ⟨hs, _⟩ | ⟨_, ho, _⟩ | ⟨_, _, hcc⟩
        · rw [hsave] at hs; cases hs
        · rw [hopen] at ho; cases ho
        · rcases hcc with ⟨k, hk, _, _⟩ | ⟨_, hg⟩
          · rw [hbud] at hk; cases hk
          · rw [hg]
            refine ⟨rfl, rfl, rfl, hpl, hlen, ⟨ps, rfl, hp, ?_⟩, rfl⟩
            rw [paintTiles_ok_length hp, hlen]
    · exact absurd hov hnov

/-- C3 witness: the concrete 6-tile run places exactly the first 4. -/
theorem c3_amended_instance :
    (generateRun cfg32 c3env).ok = true ∧
    exitOfGenerate (generateRun cfg32 c3env).ok = 0 ∧
    (generateRun cfg32 c3env).warn = some ⟨(discover c3env.files).length, cfg32.maxTiles⟩ ∧
    placedFiles cfg32 c3env = (discover c3env.files).take cfg32.maxTiles ∧
    (placedFiles cfg32 c3env).length = cfg32.maxTiles ∧
    (∃ ps, (generateRun cfg32 c3env).atlasFile = some (atlasOf cfg32 ps) ∧
       paintTiles cfg32 0 (placedFiles cfg32 c3env) = .ok ps ∧ ps.length = cfg32.maxTiles) ∧
    (generateRun cfg32 c3env).mdFile = some (mdWrites cfg32 (placedFiles cfg32 c3env)) :=
  c3_amended cfg32 c3env rfl (by decide) (by decide) rfl rfl rfl

/-! ## C4 -/

/-- C4: for every placed tile (every paste of an atlas the run wrote),
row, column and pixel offset are the pure functions of its index from
lines 64-67: the paste at list position `i` sits at
`(colOf i * tileSize, rowOf i * tileSize)`; `rowOf i * tilesPerRow +
colOf i = i`; the persisted UV pair is `(colOf i / tilesPerRow,
rowOf i / tilesPerRow)`; and no two placed tiles share an index (they
are distinct list positions) or a pixel offset. -/
theorem c4_placement (c : AtlasConfig) (env : GenEnv) (a : Atlas)
    (hts : 0 < c.tileSize)
    (ha : (generateRun c env).atlasFile = some a) :
    a.pastes.length ≤ c.maxTiles ∧
    (∀ i, ∀ hi : i < a.pastes.length,
       (a.pastes.get ⟨i, hi⟩).1 = c.colOf i * c.tileSize ∧
       (a.pastes.get ⟨i, hi⟩).2.1 = c.rowOf i * c.tileSize ∧
       c.rowOf i * c.tilesPerRow + c.colOf i = i ∧
       c.uOf i = (c.colOf i : ℚ) / (c.tilesPerRow : ℚ) ∧
       c.vOf i = (c.rowOf i : ℚ) / (c.tilesPerRow : ℚ)) ∧
    (∀ i j, ∀ hi : i < a.pastes.length, ∀ hj : j < a.pastes.length,
       (a.pastes.get ⟨i, hi⟩).1 = (a.pastes.get ⟨j, hj⟩).1 →
       (a.pastes.get ⟨i, hi⟩).2.1 = (a.pastes.get ⟨j, hj⟩).2.1 → i = j) := by
  have hps := generateRun_atlas_pastes ha
  have hlen : a.pastes.length = (placedFiles c env).length := paintTiles_ok_length hps
  have hidx : ∀ i, c.rowOf i * c.tilesPerRow + c.colOf i = i := by
    intro i
    rw [AtlasConfig.rowOf, AtlasConfig.colOf]
    rw [Nat.mul_comm]
    exact Nat.div_add_mod i c.tilesPerRow
  refine ⟨?_, ?_, ?_⟩
  · rw [hlen]; exact placedFiles_length_le c env
  · intro i hi
    obtain ⟨nm, im, hl, _, hg⟩ := paintTiles_get hps i hi
    rw [hg]
    exact ⟨by simp, by simp, hidx i, rfl, rfl⟩
  · intro i j hi hj hx hy
    obtain ⟨nmi, imi, hli, _, hgi⟩ := paintTiles_get hps i hi
    obtain ⟨nmj, imj, hlj, _, hgj⟩ := paintTiles_get hps j hj
    rw [hgi, hgj] at hx hy
    simp at hx hy
    have hcol : c.colOf i = c.colOf j := by
      rcases hx with h | h
      · exact h
      · exact absurd h (by omega)
    have hrow : c.rowOf i = c.rowOf j := by
      rcases hy with h | h
      · exact h
      · exact absurd h (by omega)
    calc i = c.rowOf i * c.tilesPerRow + c.colOf i := (hidx i).symm
      _ = c.rowOf j * c.tilesPerRow + c.colOf j := by rw [hcol, hrow]
      _ = j := hidx j

/-- Two valid tiles; every output step succeeds. -/
def c4env : GenEnv :=
  ⟨"textures/blocks", true,
   [("a.png", some (tile16 "a.png")), ("b.png", some (tile16 "b.png"))],
   true, true, none⟩

/-- The atlas that run writes: `a.png` at (0,0), `b.png` at (16,0). -/
def atlas4 : Atlas :=
  atlasOf cfg32 [(0, 0, tile16 "a.png"), (16, 0, tile16 "b.png")]

/-- C4 witness: the placement laws at index 1 of the concrete run. -/
theorem c4_placement_instance :
    (atlas4.pastes.get ⟨1, by decide⟩).1 = cfg32.colOf 1 * cfg32.tileSize ∧
    (atlas4.pastes.get ⟨1, by decide⟩).2.1 = cfg32.rowOf 1 * cfg32.tileSize ∧
    cfg32.rowOf 1 * cfg32.tilesPerRow + cfg32.colOf 1 = 1 ∧
    cfg32.uOf 1 = (cfg32.colOf 1 : ℚ) / (cfg32.tilesPerRow : ℚ) ∧
    cfg32.vOf 1 = (cfg32.rowOf 1 : ℚ) / (cfg32.tilesPerRow : ℚ) := by
  have h := c4_placement cfg32 c4env atlas4 (by decide) (by decide)
  exact h.2.1 1 (by decide)

/-! ## C5 -/

/-- C5: for every tile that survives truncation to capacity, the emitted
UV coordinates `u = colOf i / tilesPerRow` and `v = rowOf i / tilesPerRow`
(lines 105-106) satisfy `0 ≤ u < 1` and `0 ≤ v < 1`. -/
theorem c5_uv_range (c : AtlasConfig) (env : GenEnv) (i : Nat)
    (hi : i < (placedFiles c env).length) :
    0 ≤ c.uOf i ∧ c.uOf i < 1 ∧ 0 ≤ c.vOf i ∧ c.vOf i < 1 := by
  have himax : i < c.maxTiles := Nat.lt_of_lt_of_le hi (placedFiles_length_le c env)
  have htpr : 0 < c.tilesPerRow := by
    rcases Nat.eq_zero_or_pos c.tilesPerRow with h0 | h
    · rw [AtlasConfig.maxTiles, h0] at himax; simp at himax
    · exact h
  have htprq : (0 : ℚ) < (c.tilesPerRow : ℚ) := by exact_mod_cast htpr
  refine ⟨?_, ?_, ?_, ?_⟩
  · exact div_nonneg (Nat.cast_nonneg _) (Nat.cast_nonneg _)
  · rw [AtlasConfig.uOf, div_lt_one htprq]
    exact_mod_cast Nat.mod_lt i htpr
  · exact div_nonneg (Nat.cast_nonneg _) (Nat.cast_nonneg _)
  · rw [AtlasConfig.vOf, div_lt_one htprq]
    have hrow : c.rowOf i < c.tilesPerRow := by
      rw [AtlasConfig.rowOf]
      apply Nat.div_lt_of_lt_mul
      rwa [AtlasConfig.maxTiles] at himax
    exact_mod_cast hrow

/-- Two valid tiles; every output step succeeds (C5 instance). -/
def c5env : GenEnv :=
  ⟨"textures/blocks", true,
   [("p.png", some (tile16 "p.png")), ("q.png", some (tile16 "q.png"))],
   true, true, none⟩

/-- C5 witness: UV bounds at index 1 of a concrete run. -/
theorem c5_uv_range_instance :
    0 ≤ cfg32.uOf 1 ∧ cfg32.uOf 1 < 1 ∧ 0 ≤ cfg32.vOf 1 ∧ cfg32.vOf 1 < 1 :=
  c5_uv_range cfg32 c5env 1 (by decide)

/-! ## C8 -/

/-- C8: the pixel content painted for every source tile is exactly
`tileSize × tileSize` --- a source image whose native size equals
`(tileSize, tileSize)` is used unmodified, any other size (larger,
smaller, any aspect ratio) is resampled to `(tileSize, tileSize)` with
the Lanczos filter, and a size mismatch never raises; consequently every
paste of a written atlas has content of exactly that size. -/
theorem c8_tile_fit (c : AtlasConfig) (img : PImage) :
    (loadAndFit c img).size = (c.tileSize, c.tileSize) ∧
    (img.size = (c.tileSize, c.tileSize) → loadAndFit c img = img) ∧
    (img.size ≠ (c.tileSize, c.tileSize) →
       loadAndFit c img = PImage.resized img c.tileSize c.tileSize .lanczos) ∧
    (∀ env a, (generateRun c env).atlasFile = some a →
       ∀ p ∈ a.pastes, (p.2.2).size = (c.tileSize, c.tileSize)) := by
  have hsize : ∀ im : PImage, (loadAndFit c im).size = (c.tileSize, c.tileSize) := by
    intro im
    by_cases h : im.size = (c.tileSize, c.tileSize)
    · rw [loadAndFit, if_pos h]; exact h
    · rw [loadAndFit, if_neg h]; rfl
  refine ⟨hsize img, ?_, ?_, ?_⟩
  · intro h; rw [loadAndFit, if_pos h]
  · intro h; rw [loadAndFit, if_neg h]; rfl
  · intro env a ha p hp
    have hps := generateRun_atlas_pastes ha
    rcases List.mem_iff_get.mp hp with ⟨⟨i, hi⟩, hgi⟩
    obtain ⟨nm, im, hl, _, hg⟩ := paintTiles_get hps i hi
    rw [← hgi, hg]
    exact hsize im

/-- A 32×32 source image against tile size 16. -/
def img32big : PImage := .decoded "big.png" 32 32

/-- C8 witness: the oversized tile is resampled with Lanczos to 16×16. -/
theorem c8_tile_fit_instance :
    loadAndFit cfg32 img32big = PImage.resized img32big 16 16 .lanczos ∧
    (loadAndFit cfg32 img32big).size = (16, 16) := by
  have h := c8_tile_fit cfg32 img32big
  exact ⟨h.2.2.1 (by decide), h.1⟩

/-! ## C9 -/

/-- C9: a successful run's metadata file holds the four header lines
followed by exactly one data line per placed tile, each of the form
`identifier,index,u,v` with `identifier = stem(filename)` and `u`, `v`
printed with a fixed six digits after the decimal point; the data lines
appear in placement order, their index fields being `0, 1, 2, ...` in
strictly ascending order. -/
theorem c9_metadata (c : AtlasConfig) (env : GenEnv)
    (hok : (generateRun c env).ok = true) :
    (generateRun c env).mdFile =
      some (mdHeader c (placedFiles c env).length ++
            (placedFiles c env).enum.map fun p => dataLine c p.1 p.2.1) ∧
    (placedFiles c env).enum.map Prod.fst = List.range (placedFiles c env).length ∧
    (∀ idx name, ∃ fu fv : String,
        dataLine c idx name =
          pyStem name ++ "," ++ toString idx ++ "," ++ fu ++ "," ++ fv ++ "\n" ∧
        (∃ ip f6, fu = ip ++ "." ++ f6 ∧ f6.length = 6) ∧
        (∃ ip f6, fv = ip ++ "." ++ f6 ∧ f6.length = 6)) := by
  refine ⟨(generateRun_ok_outputs hok).1, List.enum_map_fst _, ?_⟩
  intro idx name
  exact ⟨fmt6 (c.colOf idx) c.tilesPerRow, fmt6 (c.rowOf idx) c.tilesPerRow, rfl,
         ⟨_, _, rfl, rfl⟩, ⟨_, _, rfl, rfl⟩⟩

/-- Two valid tiles; every output step succeeds (C9 instance). -/
def c9env : GenEnv :=
  ⟨"textures/blocks", true,
   [("r.png", some (tile16 "r.png")), ("s.png", some (tile16 "s.png"))],
   true, true, none⟩

/-- C9 witness: the concrete run's metadata is the headers plus the
enumerated data lines. -/
theorem c9_metadata_instance :
    (generateRun cfg32 c9env).mdFile =
      some (mdHeader cfg32 (placedFiles cfg32 c9env).length ++
            (placedFiles cfg32 c9env).enum.map fun p => dataLine cfg32 p.1 p.2.1) :=
  (c9_metadata cfg32 c9env (by decide)).1

/-! ## C10 -/

/-- C10: with `tileSize > atlasSize` (so `tilesPerRow = 0` and capacity
0) and at least one discovered tile, the run does not fail: every
discovered tile is truncated away, a fully transparent canvas (no pastes)
is saved, the metadata file holds only the header lines reporting 0
total textures, the capacity warning fires, and the exit code is 0. -/
theorem c10_zero_capacity (c : AtlasConfig) (env : GenEnv)
    (hcap : c.atlasSize < c.tileSize)
    (hdir : env.dirPresent = true)
    (hne : discover env.files ≠ [])
    (hsave : env.saveOk = true) (hopen : env.mdOpenOk = true)
    (hbud : env.mdWriteBudget = none) :
    c.tilesPerRow = 0 ∧ c.maxTiles = 0 ∧
    (generateRun c env).ok = true ∧
    exitOfGenerate (generateRun c env).ok = 0 ∧
    (generateRun c env).atlasFile = some ⟨"RGBA", c.atlasSize, (0, 0, 0, 0), []⟩ ∧
    (generateRun c env).mdFile = some (mdHeader c 0) ∧
    (generateRun c env).warn = some ⟨(discover env.files).length, 0⟩ := by
  have htpr : c.tilesPerRow = 0 := Nat.div_eq_of_lt hcap
  have hmax : c.maxTiles = 0 := by rw [AtlasConfig.maxTiles, htpr]
  have hov : (discover env.files).length > c.maxTiles := by
    rw [hmax]
    exact List.length_pos.mpr hne
  have hpl : placedFiles c env = [] := by
    simp [placedFiles, hov, hmax]
  rcases generateRun_split c env with ⟨hd, hg⟩ | ⟨hd, he, hg⟩ | ⟨hd, he, w, hw, hrest⟩
  · rw [hdir] at hd; cases hd
  · exact absurd he hne
  · rcases hw with ⟨_, hweq⟩ | ⟨hnov, _⟩
    · subst hweq
      rcases hrest with ⟨p, hp, hg⟩ | ⟨ps, hp, hcase⟩
      · rw [hpl] at hp; simp [paintTiles] at hp
      · rw [hpl] at hp
        simp [paintTiles] at hp
        rcases hcase with ⟨hs, _⟩ | ⟨_, ho, _⟩ | ⟨_, _, hcc⟩
        · rw [hsave] at hs; cases hs
        · rw [hopen] at ho; cases ho
        · rcases hcc with ⟨k, hk, _, _⟩ | ⟨_, hg⟩
          · rw [hbud] at hk; cases hk
          · subst hp
            rw [hg, hpl, hmax]
            exact ⟨htpr, rfl, rfl, rfl, rfl, by simp [mdWrites], rfl⟩
    · exact absurd hov hnov

/-- Tile size 16 but atlas size 8: capacity zero. -/
def cfgTiny : AtlasConfig := ⟨16, 8⟩

/-- One valid tile for the zero-capacity run. -/
def c10env : GenEnv :=
  ⟨"textures/blocks", true, [("z.png", some (tile16 "z.png"))], true, true, none⟩

/-- C10 witness: the concrete zero-capacity run succeeds with a blank
atlas and header-only metadata. -/
theorem c10_zero_capacity_instance :
    cfgTiny.tilesPerRow = 0 ∧ cfgTiny.maxTiles = 0 ∧
    (generateRun cfgTiny c10env).ok = true ∧
    exitOfGenerate (generateRun cfgTiny c10env).ok = 0 ∧
    (generateRun cfgTiny c10env).atlasFile = some ⟨"RGBA", cfgTiny.atlasSize, (0, 0, 0, 0), []⟩ ∧
    (generateRun cfgTiny c10env).mdFile = some (mdHeader cfgTiny 0) ∧
    (generateRun cfgTiny c10env).warn = some ⟨(discover c10env.files).length, 0⟩ :=
  c10_zero_capacity cfgTiny c10env (by decide) rfl (by decide) rfl rfl rfl

/-! ## C6 -/

/-- A benign filesystem for `main` runs. -/
def c6fs : GenEnv :=
  ⟨"textures/blocks", true, [("t.png", some (tile16 "t.png"))], true, true, none⟩

/-- PIL importable, benign filesystem. -/
def c6menv : MainEnv := ⟨true, c6fs⟩

/-- C6 counterexample: a malformed `--tile-size` value makes line 141's
`int(sys.argv[i+1])` raise `ValueError` out of `main` --- the error is
not caught, not converted into a return code of `main`. -/
theorem c6_refuted :
    mainRun c6menv
      ["texture_atlas_generator.py", "textures/blocks", "atlas.png", "--tile-size", "abc"] =
      .uncaughtValueError "abc" := by decide

/-- C6 (amended): `main` returns an exit code (0 or 1) for every input
--- including a missing image library, missing required arguments, and
every generator outcome --- except that a malformed optional-flag value
raises an uncaught `ValueError` (for a flag-value token of `argv` that
`int` rejects), and a parsed tile size of 0 raises an uncaught
`ZeroDivisionError` (from a flag-value token that `int` parses as 0). -/
theorem c6_amended (m : MainEnv) (argv : List String) :
    (∃ n, n ≤ 1 ∧ mainRun m argv = .exitCode n) ∨
    (∃ s, s ∈ argv ∧ pyInt s = none ∧ mainRun m argv = .uncaughtValueError s) ∨
    (mainRun m argv = .uncaughtZeroDivision ∧ ∃ s, s ∈ argv ∧ pyInt s = some 0) := by
  unfold mainRun
  by_cases hpil : m.pilAvailable = false
  · rw [if_pos hpil]; exact Or.inl ⟨1, le_refl 1, rfl⟩
  · rw [if_neg hpil]
    by_cases hlen : argv.length < 3
    · rw [if_pos hlen]; exact Or.inl ⟨1, le_refl 1, rfl⟩
    · rw [if_neg hlen]
      cases hpf : parseFlags (argv.drop 3) 16 4096 with
      | valueError s =>
        obtain ⟨hs, hn⟩ := parseFlags_valueError _ _ _ hpf
        exact Or.inr (Or.inl ⟨s, List.drop_subset _ _ hs, hn, rfl⟩)
      | ok t a =>
        simp only [mainAfterFlags]
        by_cases ht0 : t = 0
        · rw [if_pos ht0]
          refine Or.inr (Or.inr ⟨rfl, ?_⟩)
          obtain ⟨hts, _⟩ := parseFlags_ok_sources _ _ _ hpf
          rcases hts with ht16 | ⟨s, hs, hps⟩
          · rw [ht0] at ht16; exact absurd ht16 (by decide)
          · exact ⟨s, List.drop_subset _ _ hs, by rw [hps, ht0]⟩
        · rw [if_neg ht0]
          by_cases hneg : t < 0 ∨ a < 0
          · rw [if_pos hneg]; exact Or.inl ⟨1, le_refl 1, rfl⟩
          · rw [if_neg hneg]
            refine Or.inl ⟨exitOfGenerate (generateRun ⟨t.toNat, a.toNat⟩ m.fs).ok, ?_, rfl⟩
            cases (generateRun ⟨t.toNat, a.toNat⟩ m.fs).ok <;> simp [exitOfGenerate]
